import Mathlib

/-!
Verification of the Unwind mental-wellness app's core client logic:
the retry-capable HTTP client, the vendor call adapters, the
session/context store and the conversation orchestrator
(`src/lib/api-client.ts`, `src/lib/session-store.ts`, the `Index`
page orchestrator in its two variants).

The TypeScript sources are shallowly embedded: the nondeterministic
outcome of each `fetch` call is supplied as a trace (attempt number ↦
outcome), `sessionStorage` is a single optional stored blob,
`Date.now()` is an explicit `now` field threaded through the store
state, and the time-plus-randomness id generators are modelled by a
fresh-id counter (`nextId`), which captures exactly the freshness the
code relies on.
-/

namespace Unwind

/-! ## Retry-capable HTTP client (`api-client.ts`, `fetchWithRetry`) -/

/-- A `fetch` `Response` as far as the client inspects it:
`status`, `statusText`, and the raw body (consumed by `.json()`). -/
structure Response where
  status : Nat
  statusText : String
  body : String
deriving Repr, DecidableEq

/-- `response.ok` per the Fetch standard: status in the range 200–299. -/
def Response.ok (r : Response) : Bool :=
  200 ≤ r.status && r.status < 300

/-- A JavaScript `Error` value as the client observes it: its class
name (`name`) and its `message`. -/
structure JsError where
  name : String
  message : String
deriving Repr, DecidableEq

/-- `new Error(msg)`. -/
def jsError (msg : String) : JsError := ⟨"Error", msg⟩

/-- The message built at `api-client.ts:50,53`:
`` `HTTP ${response.status}: ${response.statusText}` ``. -/
def httpErrorMessage (status : Nat) (statusText : String) : String :=
  "HTTP " ++ toString status ++ ": " ++ statusText

deriving instance DecidableEq for Except

/-- Outcome of one `fetch(url, options)` call: either it resolves to a
`Response`, or it rejects (network/transport error) with a message. -/
inductive AttemptResult where
  | resp (r : Response)
  | thrown (msg : String)
deriving Repr, DecidableEq

/-- Result of one iteration of the `try { ... } catch { ... }` body of
`fetchWithRetry` (`api-client.ts:41-56`): either the function returns
the ok response, or control falls through with `lastError` set. -/
inductive TryOutcome where
  | ret (r : Response)
  | caught (e : JsError)
deriving Repr, DecidableEq

/-- The `try`/`catch` body at `api-client.ts:41-56`. The `throw` for a
non-429 4xx response at line 50 sits inside the same `try`, so the
`catch (error)` at line 54 receives it and merely records it in
`lastError`; the fall-through for other non-ok statuses (line 53)
records the identically-built error. -/
def tryBody (o : AttemptResult) : TryOutcome :=
  match o with
  | .thrown msg => .caught (jsError msg)
  | .resp r =>
    if r.ok then .ret r
    else if 400 ≤ r.status ∧ r.status < 500 ∧ r.status ≠ 429 then
      .caught (jsError (httpErrorMessage r.status r.statusText))
    else
      .caught (jsError (httpErrorMessage r.status r.statusText))

/-- `RetryConfig` (`api-client.ts:17-21`); delays in milliseconds. -/
structure RetryConfig where
  maxRetries : Nat
  baseDelay : Nat
  maxDelay : Nat
deriving Repr, DecidableEq

/-- `defaultRetryConfig` (`api-client.ts:23-27`). -/
def defaultRetryConfig : RetryConfig :=
  { maxRetries := 3, baseDelay := 1000, maxDelay := 10000 }

/-- The delay computed at `api-client.ts:59-62` at the end of loop
iteration `attempt`: `Math.min(baseDelay * 2^attempt, maxDelay)`. -/
def delayFor (cfg : RetryConfig) (attempt : Nat) : Nat :=
  min (cfg.baseDelay * 2 ^ attempt) cfg.maxDelay

/-- Observable result of a `fetchWithRetry` call: the returned
response or thrown error, the durations slept (in order), and how
many `fetch` attempts were issued. -/
structure RetryResult where
  outcome : Except JsError Response
  sleeps : List Nat
  attemptsMade : Nat
deriving Repr, DecidableEq

/-- The `for (let attempt = 0; attempt <= config.maxRetries; attempt++)`
loop of `fetchWithRetry` (`api-client.ts:40-65`), with `fuel` the
number of loop iterations still permitted (initially `maxRetries + 1`)
and `lastError` the accumulator of line 38. When the loop exits, the
function throws `lastError || new Error('Request failed after retries')`
(line 67). -/
def fetchWithRetryGo (cfg : RetryConfig) (trace : Nat → AttemptResult) :
    Nat → Nat → Option JsError → RetryResult
  | _, 0, lastError =>
    { outcome := .error (lastError.getD (jsError "Request failed after retries"))
      sleeps := []
      attemptsMade := 0 }
  | attempt, fuel + 1, _ =>
    match tryBody (trace attempt) with
    | .ret r => { outcome := .ok r, sleeps := [], attemptsMade := 1 }
    | .caught e =>
      let rest := fetchWithRetryGo cfg trace (attempt + 1) fuel (some e)
      if attempt < cfg.maxRetries then
        { outcome := rest.outcome
          sleeps := delayFor cfg attempt :: rest.sleeps
          attemptsMade := rest.attemptsMade + 1 }
      else
        { outcome := rest.outcome
          sleeps := rest.sleeps
          attemptsMade := rest.attemptsMade + 1 }

/-- `fetchWithRetry(url, options, config)` (`api-client.ts:33-68`),
with the outcomes of the successive `fetch` calls supplied by
`trace`. -/
def fetchWithRetry (cfg : RetryConfig) (trace : Nat → AttemptResult) : RetryResult :=
  fetchWithRetryGo cfg trace 0 (cfg.maxRetries + 1) none

/-- An attempt outcome the spec calls retryable: HTTP 429, any 5xx
status, or a thrown transport error. -/
def RetryableOutcome (o : AttemptResult) : Prop :=
  match o with
  | .thrown _ => True
  | .resp r => r.status = 429 ∨ (500 ≤ r.status ∧ r.status < 600)

instance : DecidablePred RetryableOutcome := fun o =>
  match o with
  | .thrown _ => isTrue trivial
  | .resp _ => inferInstanceAs (Decidable (_ ∨ _))

/-! ## Error types (`api-client.ts:211-230`)

Each class extends `Error` and sets `this.name` in its constructor, so
the classes are distinguishable by the `name` field. -/

/-- `new TranscriptionError(message)`. -/
def TranscriptionError (message : String) : JsError :=
  ⟨"TranscriptionError", message⟩

/-- `new GenerationError(message)`. -/
def GenerationError (message : String) : JsError :=
  ⟨"GenerationError", message⟩

/-- `new TTSError(message)`. -/
def TTSError (message : String) : JsError :=
  ⟨"TTSError", message⟩

/-! ## Vendor call adapters (`api-client.ts:88-205`)

Each adapter builds its request (which flows into the abstracted
`fetch` options), routes the call through `fetchWithRetry` with the
default retry config, and on a resolved response returns
`response.json()`; `json` supplies the outcome of that external body
parse. None of the adapters has a `try`/`catch`, so a rejection from
`fetchWithRetry` propagates to the caller unchanged. -/

/-- Message role, `'user' | 'assistant'`. -/
inductive Role where
  | user
  | assistant
deriving Repr, DecidableEq

/-- One entry of the conversation context sent to the generation
endpoint: `{ role: 'user' | 'assistant'; content: string }`. -/
structure ContextEntry where
  role : Role
  content : String
deriving Repr, DecidableEq

/-- `TranscribeResponse` (`api-client.ts:74-77`). -/
structure TranscribeResponse where
  transcription : String
  language : String
deriving Repr, DecidableEq

/-- `GenerateResponse` (`api-client.ts:118-123`); `metadata` is an
opaque JSON object, kept as its raw text. -/
structure GenerateResponse where
  id : String
  outputText : String
  tokensUsed : Nat
  metadata : String
deriving Repr, DecidableEq

/-- `TTSResponse` (`api-client.ts:171-174`); `duration` in seconds,
kept rational since the vendor may return fractions. -/
structure TTSResponse where
  audioUrl : String
  duration : ℚ
deriving Repr, DecidableEq

/-- `'mp3' | 'wav' | 'ogg'`. -/
inductive AudioFormat where
  | mp3
  | wav
  | ogg
deriving Repr, DecidableEq

/-- `transcribeAudio(audioBlob, sessionId)` (`api-client.ts:88-102`):
send the form data through `fetchWithRetry`, then `response.json()`.
The audio blob and form data live inside the abstracted fetch options;
session ids are modelled as `Nat` (see the store embedding below). -/
def transcribeAudio (sessionId : Nat) (trace : Nat → AttemptResult)
    (json : Response → Except JsError TranscribeResponse) :
    Except JsError TranscribeResponse :=
  match (fetchWithRetry defaultRetryConfig trace).outcome with
  | .error e => .error e
  | .ok r => json r

/-- `generateResponse(userText, sessionId, context)`
(`api-client.ts:135-159`): build the JSON request with
`promptTemplateId: 'unwind_v1'`, send it through `fetchWithRetry`,
then `response.json()`. -/
def generateResponse (userText : String) (sessionId : Nat)
    (context : List ContextEntry) (trace : Nat → AttemptResult)
    (json : Response → Except JsError GenerateResponse) :
    Except JsError GenerateResponse :=
  match (fetchWithRetry defaultRetryConfig trace).outcome with
  | .error e => .error e
  | .ok r => json r

/-- `textToSpeech(text, voiceId, format)` (`api-client.ts:185-205`):
build the JSON request, send it through `fetchWithRetry`, then
`response.json()`. -/
def textToSpeech (text : String) (voiceId : String) (format : AudioFormat)
    (trace : Nat → AttemptResult)
    (json : Response → Except JsError TTSResponse) :
    Except JsError TTSResponse :=
  match (fetchWithRetry defaultRetryConfig trace).outcome with
  | .error e => .error e
  | .ok r => json r

/-! ## Session store (`session-store.ts`)

`sessionStorage` under the fixed key `'unwind_session'` is modelled as
`storage : Option StoredBlob`; a stored blob is either a decodable
`SessionData` or a corrupt string on which `JSON.parse` throws.
`Date.now()` is the explicit `now` field; the `Date.now()`-plus-random
id generators are modelled by the fresh-id counter `nextId`, ids by
`Nat`. Every operation takes the state and returns its result together
with the updated state. -/

/-- `SESSION_TTL` with the default `'3600000'` (one hour). -/
def SESSION_TTL : Nat := 3600000

/-- `Message` (`session-store.ts`): the optional fields `audioUrl` and
`isEdited` are absent until first set. -/
structure Message where
  id : Nat
  role : Role
  content : String
  timestamp : Nat
  audioUrl : Option String
  isEdited : Option Bool
deriving Repr, DecidableEq

/-- `SessionSettings`; `playbackSpeed` kept rational (source default
`1.1`). -/
structure SessionSettings where
  voiceId : String
  playbackSpeed : ℚ
  autoPlay : Bool
deriving Repr, DecidableEq

/-- `defaultSettings` (`session-store.ts`). -/
def defaultSettings : SessionSettings :=
  { voiceId := "ixW16lrB2mGXfoaYggBt", playbackSpeed := 11 / 10, autoPlay := false }

/-- A `Partial<SessionSettings>` argument to `updateSettings`. -/
structure PartialSettings where
  voiceId : Option String
  playbackSpeed : Option ℚ
  autoPlay : Option Bool
deriving Repr, DecidableEq

/-- The spread `{ ...settings, ...partial }`: present fields of the
partial override the current settings. -/
def mergeSettings (s : SessionSettings) (p : PartialSettings) : SessionSettings :=
  { voiceId := p.voiceId.getD s.voiceId
    playbackSpeed := p.playbackSpeed.getD s.playbackSpeed
    autoPlay := p.autoPlay.getD s.autoPlay }

/-- `SessionData` (`session-store.ts`). -/
structure SessionData where
  id : Nat
  messages : List Message
  createdAt : Nat
  updatedAt : Nat
  settings : SessionSettings
deriving Repr, DecidableEq

/-- The raw blob stored under `STORAGE_KEY`: either serialized
`SessionData`, or bytes on which `JSON.parse` throws. -/
inductive StoredBlob where
  | valid (s : SessionData)
  | corrupt (raw : String)
deriving Repr, DecidableEq

/-- `JSON.parse` on a stored blob: yields the session, or throws. -/
def jsonParse (blob : StoredBlob) : Except String SessionData :=
  match blob with
  | .valid s => .ok s
  | .corrupt raw => .error ("Unexpected token in JSON: " ++ raw)

/-- The ambient state a store operation runs in: the stored blob, the
current clock (`Date.now()`), and the fresh-id counter standing in for
the time-plus-randomness id generators. -/
structure StoreState where
  storage : Option StoredBlob
  now : Nat
  nextId : Nat
deriving Repr, DecidableEq

/-- `generateId()`: a fresh message id
(`` `${Date.now()}-${random}` `` in the source). -/
def generateId (st : StoreState) : Nat × StoreState :=
  (st.nextId, { st with nextId := st.nextId + 1 })

/-- `generateSessionId()`: a fresh session id
(`` `session-${Date.now()}-${random}` `` in the source). -/
def generateSessionId (st : StoreState) : Nat × StoreState :=
  (st.nextId, { st with nextId := st.nextId + 1 })

/-- `clearSession()`: `sessionStorage.removeItem(STORAGE_KEY)`. -/
def clearSession (st : StoreState) : StoreState :=
  { st with storage := none }

/-- `saveSession(session)`: refresh `updatedAt` to `Date.now()` and
write the blob. -/
def saveSession (session : SessionData) (st : StoreState) : StoreState :=
  { st with storage := some (.valid { session with updatedAt := st.now }) }

/-- `getSession()`: read the blob; absent → `null`; `JSON.parse`
throwing is swallowed by the surrounding `try`/`catch` → `null`
(without deleting the blob); expired (`Date.now() - updatedAt >
SESSION_TTL`) → `clearSession()` then `null`; else the session.

With `Nat` subtraction, a clock earlier than `updatedAt` gives
`now - updatedAt = 0`, not expired — matching the negative JS
difference, which also compares below the TTL. -/
def getSession (st : StoreState) : Option SessionData × StoreState :=
  match st.storage with
  | none => (none, st)
  | some blob =>
    match jsonParse blob with
    | .error _ => (none, st)
    | .ok session =>
      if SESSION_TTL < st.now - session.updatedAt then
        (none, clearSession st)
      else
        (some session, st)

/-- `createSession()`: fresh id, empty messages, both timestamps set
to now, default settings (copied), persisted. -/
def createSession (st : StoreState) : SessionData × StoreState :=
  let (sid, st1) := generateSessionId st
  let session : SessionData :=
    { id := sid, messages := [], createdAt := st1.now, updatedAt := st1.now
      settings := defaultSettings }
  (session, saveSession session st1)

/-- `getOrCreateSession()`: `getSession() || createSession()`. -/
def getOrCreateSession (st : StoreState) : SessionData × StoreState :=
  match getSession st with
  | (some session, st1) => (session, st1)
  | (none, st1) => createSession st1

/-- `addMessage(role, content, audioUrl?)`: lazily obtain the session,
append a message with a fresh id and the current timestamp, persist,
and return the created message. -/
def addMessage (role : Role) (content : String) (audioUrl : Option String)
    (st : StoreState) : Message × StoreState :=
  let (session, st1) := getOrCreateSession st
  let (mid, st2) := generateId st1
  let message : Message :=
    { id := mid, role := role, content := content, timestamp := st2.now
      audioUrl := audioUrl, isEdited := none }
  (message, saveSession { session with messages := session.messages ++ [message] } st2)

/-- `session.messages.find(...)` followed by in-place mutation of the
found element: rewrite the first member satisfying `p` with `f`. -/
def updateFirst (p : Message → Bool) (f : Message → Message) :
    List Message → List Message
  | [] => []
  | m :: ms => if p m then f m :: ms else m :: updateFirst p f ms

/-- `updateMessage(messageId, content)`: no-op when no (valid)
session; otherwise mutate the found message's `content`, set
`isEdited`, and persist — or do nothing when the id is absent. -/
def updateMessage (messageId : Nat) (content : String) (st : StoreState) : StoreState :=
  match getSession st with
  | (none, st1) => st1
  | (some session, st1) =>
    if session.messages.any (fun m => m.id == messageId) then
      saveSession
        { session with
          messages := updateFirst (fun m => m.id == messageId)
            (fun m => { m with content := content, isEdited := some true })
            session.messages } st1
    else st1

/-- `updateMessageAudioUrl(messageId, audioUrl)`: same shape as
`updateMessage`, attaching `audioUrl` instead. -/
def updateMessageAudioUrl (messageId : Nat) (audioUrl : String) (st : StoreState) :
    StoreState :=
  match getSession st with
  | (none, st1) => st1
  | (some session, st1) =>
    if session.messages.any (fun m => m.id == messageId) then
      saveSession
        { session with
          messages := updateFirst (fun m => m.id == messageId)
            (fun m => { m with audioUrl := some audioUrl })
            session.messages } st1
    else st1

/-- `getMessages()`: `getSession()?.messages || []`. -/
def getMessages (st : StoreState) : List Message × StoreState :=
  match getSession st with
  | (some session, st1) => (session.messages, st1)
  | (none, st1) => ([], st1)

/-- `getSessionId()`: `getOrCreateSession().id`. -/
def getSessionId (st : StoreState) : Nat × StoreState :=
  let (session, st1) := getOrCreateSession st
  (session.id, st1)

/-- `getSettings()`: `getSession()?.settings || { ...defaultSettings }`. -/
def getSettings (st : StoreState) : SessionSettings × StoreState :=
  match getSession st with
  | (some session, st1) => (session.settings, st1)
  | (none, st1) => (defaultSettings, st1)

/-- `updateSettings(settings)`: lazily obtain the session,
shallow-merge, persist. -/
def updateSettings (p : PartialSettings) (st : StoreState) : StoreState :=
  let (session, st1) := getOrCreateSession st
  saveSession { session with settings := mergeSettings session.settings p } st1

/-- `getConversationContext()`: project the current messages to
`{ role, content }` pairs, preserving order. -/
def getConversationContext (st : StoreState) : List ContextEntry × StoreState :=
  let (messages, st1) := getMessages st
  (messages.map (fun m => { role := m.role, content := m.content }), st1)

/-! ## Conversation orchestrator (`processUserInput`, both variants)

The `Index` page exists in two variants. Variant 1 captures the
conversation context before inserting the turn's messages; variant 2
reads the context after inserting them and drops the last entry
(`slice(0, -1)`). Both are embedded below over an `App` combining the
store state with the React component state that the turn touches
(`messages`, `error`, `generatingMessageId`, `isProcessing`). The
generation call's outcome is supplied by `genTrace`/`genJson` and runs
through the embedded `generateResponse` adapter; the `autoPlay`
synthesis sub-flow (`handlePlayAudio`) is abstracted as the `playAudio`
callback, which is how the component wires it. -/

/-- The component's `error` state: `{ type, message }` (the bound
`retry` closure is not data). -/
structure OrchError where
  type : String
  message : String
deriving Repr, DecidableEq

/-- The React component state touched by a turn. -/
structure AppUI where
  messages : List Message
  error : Option OrchError
  generatingMessageId : Option Nat
  isProcessing : Bool
deriving Repr, DecidableEq

/-- Store state plus component state. -/
structure App where
  store : StoreState
  ui : AppUI
deriving Repr, DecidableEq

/-- What a completed turn exposes: the final state, the `context`
argument that was passed to the `generateResponse` adapter, the two
messages inserted by the turn, and the generation outcome. -/
structure TurnResult where
  app : App
  contextSent : List ContextEntry
  userMessage : Message
  placeholderMessage : Message
  genResult : Except JsError GenerateResponse
deriving Repr, DecidableEq

/-- `processUserInput(userText)`, variant 1 (`Index` with
`previousContext`): capture `getConversationContext()` first, insert
the user message and the empty assistant placeholder, call
`generateResponse(userText, getSessionId(), previousContext)`; on
success fill the placeholder via `updateMessage` (then auto-play if
enabled); on failure filter the placeholder out of the *React*
`messages` state only — the store is not re-saved — and record a
`generation` error whose message is `err.message` when the error is a
`GenerationError` and a generic fallback otherwise. The `finally`
block clears `isProcessing` and `generatingMessageId`. -/
def processUserInputV1 (userText : String)
    (genTrace : Nat → AttemptResult)
    (genJson : Response → Except JsError GenerateResponse)
    (settings : SessionSettings)
    (playAudio : Nat → App → App)
    (app : App) : TurnResult :=
  let ui0 := { app.ui with error := none }
  let (previousContext, st1) := getConversationContext app.store
  let (userMessage, st2) := addMessage .user userText none st1
  let (ms1, st3) := getMessages st2
  let ui1 := { ui0 with messages := ms1, isProcessing := true }
  let (placeholderMessage, st4) := addMessage .assistant "" none st3
  let (ms2, st5) := getMessages st4
  let ui2 := { ui1 with generatingMessageId := some placeholderMessage.id, messages := ms2 }
  let (sid, st6) := getSessionId st5
  let result := generateResponse userText sid previousContext genTrace genJson
  match result with
  | .ok response =>
    let st7 := updateMessage placeholderMessage.id response.outputText st6
    let (ms3, st8) := getMessages st7
    let ui3 := { ui2 with messages := ms3, generatingMessageId := none }
    let appMid : App := { store := st8, ui := ui3 }
    let appPlayed := if settings.autoPlay then playAudio placeholderMessage.id appMid else appMid
    let appFin : App :=
      { appPlayed with
        ui := { appPlayed.ui with isProcessing := false, generatingMessageId := none } }
    { app := appFin, contextSent := previousContext, userMessage := userMessage
      placeholderMessage := placeholderMessage, genResult := result }
  | .error e =>
    let (currentMessages, st7) := getMessages st6
    let filteredMessages := currentMessages.filter (fun m => m.id != placeholderMessage.id)
    let ui3 :=
      { ui2 with
        messages := filteredMessages
        error := some
          { type := "generation"
            message := if e.name == "GenerationError" then e.message
              else "Failed to generate response. Please try again." } }
    let appFin : App :=
      { store := st7
        ui := { ui3 with isProcessing := false, generatingMessageId := none } }
    { app := appFin, contextSent := previousContext, userMessage := userMessage
      placeholderMessage := placeholderMessage, genResult := result }

/-- `processUserInput(userText)`, variant 2 (`Index` with
`getConversationContext().slice(0, -1)`): insert the user message and
the placeholder first, then read the context and drop its last entry
(the placeholder) before calling `generateResponse`. The success,
failure and `finally` handling match variant 1. -/
def processUserInputV2 (userText : String)
    (genTrace : Nat → AttemptResult)
    (genJson : Response → Except JsError GenerateResponse)
    (settings : SessionSettings)
    (playAudio : Nat → App → App)
    (app : App) : TurnResult :=
  let ui0 := { app.ui with error := none }
  let (userMessage, st2) := addMessage .user userText none app.store
  let (ms1, st3) := getMessages st2
  let ui1 := { ui0 with messages := ms1, isProcessing := true }
  let (placeholderMessage, st4) := addMessage .assistant "" none st3
  let (ms2, st5) := getMessages st4
  let ui2 := { ui1 with generatingMessageId := some placeholderMessage.id, messages := ms2 }
  let (fullContext, st6) := getConversationContext st5
  let context := fullContext.dropLast
  let (sid, st7) := getSessionId st6
  let result := generateResponse userText sid context genTrace genJson
  match result with
  | .ok response =>
    let st8 := updateMessage placeholderMessage.id response.outputText st7
    let (ms3, st9) := getMessages st8
    let ui3 := { ui2 with messages := ms3, generatingMessageId := none }
    let appMid : App := { store := st9, ui := ui3 }
    let appPlayed := if settings.autoPlay then playAudio placeholderMessage.id appMid else appMid
    let appFin : App :=
      { appPlayed with
        ui := { appPlayed.ui with isProcessing := false, generatingMessageId := none } }
    { app := appFin, contextSent := context, userMessage := userMessage
      placeholderMessage := placeholderMessage, genResult := result }
  | .error e =>
    let (currentMessages, st8) := getMessages st7
    let filteredMessages := currentMessages.filter (fun m => m.id != placeholderMessage.id)
    let ui3 :=
      { ui2 with
        messages := filteredMessages
        error := some
          { type := "generation"
            message := if e.name == "GenerationError" then e.message
              else "Failed to generate response. Please try again." } }
    let appFin : App :=
      { store := st8
        ui := { ui3 with isProcessing := false, generatingMessageId := none } }
    { app := appFin, contextSent := context, userMessage := userMessage
      placeholderMessage := placeholderMessage, genResult := result }

/-! ## Auxiliary notions used by the statements -/

/-- The message list a stored valid blob holds; `[]` when nothing (or
something corrupt) is stored. -/
def storedMessages (st : StoreState) : List Message :=
  match st.storage with
  | some (.valid s) => s.messages
  | _ => []

/-- The stored session, if any, is not expired at the state's clock. -/
def NoExpiry (st : StoreState) : Prop :=
  ∀ s, st.storage = some (.valid s) → st.now - s.updatedAt ≤ SESSION_TTL

/-- Every stored message id lies below the fresh-id counter — the
freshness the time-plus-randomness generator provides. -/
def IdsBelow (st : StoreState) : Prop :=
  ∀ m ∈ storedMessages st, m.id < st.nextId

/-- The `{ role, content }` projection `getConversationContext` uses. -/
def contextOf (messages : List Message) : List ContextEntry :=
  messages.map (fun m => { role := m.role, content := m.content })

/-- One `addMessage(role, content, audioUrl?)` call, performed when the
clock reads `time`. -/
structure AddCall where
  time : Nat
  role : Role
  content : String
  audioUrl : Option String
deriving Repr, DecidableEq

/-- Run a sequence of `addMessage` calls, each at its own clock
reading. -/
def runAdds : List AddCall → StoreState → StoreState
  | [], st => st
  | c :: cs, st =>
    runAdds cs (addMessage c.role c.content c.audioUrl { st with now := c.time }).2

/-! # Theorems

## Retry client -/

theorem tryBody_caught_name (o : AttemptResult) (e : JsError)
    (h : tryBody o = .caught e) : e.name = "Error" := by
  cases o with
  | thrown msg =>
    simp only [tryBody] at h
    cases h
    rfl
  | resp r =>
    simp only [tryBody] at h
    split at h
    · cases h
    · split at h <;> (cases h; rfl)

theorem tryBody_of_not_ok (r : Response) (h : r.ok = false) :
    tryBody (.resp r) = .caught (jsError (httpErrorMessage r.status r.statusText)) := by
  simp [tryBody, h]

theorem retryable_not_ok (r : Response) (h : RetryableOutcome (.resp r)) :
    r.ok = false := by
  simp only [RetryableOutcome] at h
  simp only [Response.ok, Bool.and_eq_false_iff, decide_eq_false_iff_not, not_le, not_lt]
  rcases h with h | h <;> omega

theorem fetchWithRetryGo_sleeps_nil (cfg : RetryConfig) (trace : Nat → AttemptResult)
    (fuel : Nat) :
    ∀ (attempt : Nat) (lastError : Option JsError), cfg.maxRetries ≤ attempt →
      (fetchWithRetryGo cfg trace attempt fuel lastError).sleeps = [] := by
  induction fuel with
  | zero => intro a le _; rfl
  | succ fuel ih =>
    intro a le h
    rcases htb : tryBody (trace a) with r | e
    · simp [fetchWithRetryGo, htb]
    · simp only [fetchWithRetryGo, htb]
      rw [if_neg (by omega)]
      exact ih (a + 1) (some e) (by omega)

theorem fetchWithRetryGo_sleeps_eq (cfg : RetryConfig) (trace : Nat → AttemptResult)
    (fuel : Nat) :
    ∀ (attempt : Nat) (lastError : Option JsError),
      (fetchWithRetryGo cfg trace attempt fuel lastError).sleeps
        = (List.range (fetchWithRetryGo cfg trace attempt fuel lastError).sleeps.length).map
            (fun k => delayFor cfg (attempt + k)) := by
  induction fuel with
  | zero => intro a le; rfl
  | succ fuel ih =>
    intro a le
    rcases htb : tryBody (trace a) with r | e
    · simp [fetchWithRetryGo, htb]
    · simp only [fetchWithRetryGo, htb]
      by_cases hlt : a < cfg.maxRetries
      · rw [if_pos hlt]
        simp only [List.length_cons, List.range_succ_eq_map, List.map_cons, List.map_map]
        refine List.cons_eq_cons.mpr ⟨by simp, ?_⟩
        conv_lhs => rw [ih (a + 1) (some e)]
        congr 1
        funext k
        simp only [Function.comp]
        congr 1
        omega
      · rw [if_neg hlt]
        have h1 : (fetchWithRetryGo cfg trace (a + 1) fuel (some e)).sleeps = [] :=
          fetchWithRetryGo_sleeps_nil cfg trace fuel (a + 1) (some e) (by omega)
        simp [h1]

theorem fetchWithRetryGo_retry_spec (cfg : RetryConfig) (trace : Nat → AttemptResult)
    (r : Response) :
    ∀ (n attempt fuel : Nat) (lastError : Option JsError),
      attempt + n ≤ cfg.maxRetries → n < fuel →
      (∀ k, k < n → RetryableOutcome (trace (attempt + k))) →
      trace (attempt + n) = .resp r → r.ok = true →
      (fetchWithRetryGo cfg trace attempt fuel lastError).outcome = .ok r ∧
      (fetchWithRetryGo cfg trace attempt fuel lastError).sleeps
        = (List.range n).map (fun k => delayFor cfg (attempt + k)) := by
  intro n
  induction n with
  | zero =>
    intro a fuel le _ hfuel _ hsucc hok
    obtain ⟨fuel, rfl⟩ : ∃ f, fuel = f + 1 := ⟨fuel - 1, by omega⟩
    have htb : tryBody (trace a) = .ret r := by
      rw [show a = a + 0 from rfl, hsucc]
      simp [tryBody, hok]
    simp [fetchWithRetryGo, htb]
  | succ n ih =>
    intro a fuel le hmax hfuel hfail hsucc hok
    obtain ⟨fuel, rfl⟩ : ∃ f, fuel = f + 1 := ⟨fuel - 1, by omega⟩
    have hret : RetryableOutcome (trace a) := by
      have := hfail 0 (by omega)
      simpa using this
    have htb : ∃ e, tryBody (trace a) = .caught e := by
      rcases ho : trace a with r0 | msg
      · rw [ho] at hret
        exact ⟨_, tryBody_of_not_ok r0 (retryable_not_ok r0 hret)⟩
      · exact ⟨_, rfl⟩
    obtain ⟨e, htb⟩ := htb
    have ihres := ih (a + 1) fuel (some e) (by omega) (by omega)
      (fun k hk => by
        have := hfail (k + 1) (by omega)
        rwa [show a + (k + 1) = a + 1 + k by omega] at this)
      (by rwa [show a + 1 + n = a + (n + 1) by omega])
      hok
    simp only [fetchWithRetryGo, htb]
    rw [if_pos (by omega)]
    refine ⟨ihres.1, ?_⟩
    simp only [List.range_succ_eq_map, List.map_cons, List.map_map]
    refine List.cons_eq_cons.mpr ⟨by simp, ?_⟩
    rw [ihres.2]
    congr 1
    funext k
    simp only [Function.comp]
    congr 1
    omega

/-- C1 (code bug): the claim — and the comment at `api-client.ts:48` —
say a 4xx response other than 429 (e.g. 404) fails immediately with no
further attempts and no sleeps. In the code the fast-fail `throw`
sits inside the `try` block, so the function's own `catch` swallows it:
with every attempt answering 404 and the default config, the call
issues 4 fetch attempts and sleeps 3 times (1 s, 2 s, 4 s) before
failing with the status-derived error. -/
theorem C1_clientError_retried_eval :
    (fetchWithRetry defaultRetryConfig
        (fun _ => .resp ⟨404, "Not Found", ""⟩)).attemptsMade = 4 ∧
    (fetchWithRetry defaultRetryConfig
        (fun _ => .resp ⟨404, "Not Found", ""⟩)).sleeps = [1000, 2000, 4000] ∧
    (fetchWithRetry defaultRetryConfig
        (fun _ => .resp ⟨404, "Not Found", ""⟩)).outcome
      = .error (jsError "HTTP 404: Not Found") := by
  decide

/-- C5: for every `n ≤ maxRetries`, if the first `n` attempts fail
with retryable outcomes (429, 5xx, or a thrown transport error) and
attempt `n` resolves to a success response, `fetchWithRetry` returns
that response and performs exactly `n` sleeps, the `k`-th (1-based)
being `min(baseDelay·2^(k-1), maxDelay)`. -/
theorem C5_retry_then_success (cfg : RetryConfig) (trace : Nat → AttemptResult)
    (n : Nat) (r : Response) (hn : n ≤ cfg.maxRetries)
    (hfail : ∀ k, k < n → RetryableOutcome (trace k))
    (hsucc : trace n = .resp r) (hok : r.ok = true) :
    (fetchWithRetry cfg trace).outcome = .ok r ∧
    (fetchWithRetry cfg trace).sleeps
      = (List.range n).map (fun k => min (cfg.baseDelay * 2 ^ k) cfg.maxDelay) := by
  have h := fetchWithRetryGo_retry_spec cfg trace r n 0 (cfg.maxRetries + 1) none
    (by omega) (by omega) (fun k hk => by simpa using hfail k hk) (by simpa using hsucc) hok
  exact ⟨h.1, by simpa [delayFor] using h.2⟩

/-- Witness for C5 at `n = 2`: two 500 responses then a success, under
the default config. -/
theorem C5_retry_then_success_witness :
    (fetchWithRetry defaultRetryConfig
        (fun k => if k < 2 then .resp ⟨500, "ISE", ""⟩ else .resp ⟨200, "OK", "done"⟩)).outcome
      = .ok ⟨200, "OK", "done"⟩ ∧
    (fetchWithRetry defaultRetryConfig
        (fun k => if k < 2 then .resp ⟨500, "ISE", ""⟩ else .resp ⟨200, "OK", "done"⟩)).sleeps
      = (List.range 2).map
          (fun k => min (defaultRetryConfig.baseDelay * 2 ^ k) defaultRetryConfig.maxDelay) :=
  C5_retry_then_success defaultRetryConfig
    (fun k => if k < 2 then .resp ⟨500, "ISE", ""⟩ else .resp ⟨200, "OK", "done"⟩)
    2 ⟨200, "OK", "done"⟩ (by decide) (by decide) (by decide) (by decide)

/-- C6 (counterexample): under the default config, after a single 500
the sleep immediately before attempt 1 is 1000 ms
(`baseDelay·2^0`), not `min(baseDelay·2^1, maxDelay) = 2000` as the
claim's formula demands. -/
theorem C6_backoff_exponent_counterexample :
    (fetchWithRetry defaultRetryConfig
        (fun k => if k < 1 then .resp ⟨500, "ISE", ""⟩ else .resp ⟨200, "OK", ""⟩)).sleeps
      = [1000] ∧
    min (defaultRetryConfig.baseDelay * 2 ^ 1) defaultRetryConfig.maxDelay = 2000 ∧
    (1000 : Nat) ≠ 2000 := by
  decide

/-- C6 (amended): in every `fetchWithRetry` run the `k`-th sleep
performed (0-indexed, i.e. the sleep immediately before attempt
`k + 1`) lasts `min(baseDelay · 2^k, maxDelay)` — exponent `k`, one
less than the attempt number it precedes. -/
theorem C6_amended_backoff_delays (cfg : RetryConfig) (trace : Nat → AttemptResult) :
    (fetchWithRetry cfg trace).sleeps
      = (List.range (fetchWithRetry cfg trace).sleeps.length).map
          (fun k => min (cfg.baseDelay * 2 ^ k) cfg.maxDelay) := by
  have h := fetchWithRetryGo_sleeps_eq cfg trace (cfg.maxRetries + 1) 0 none
  simpa [delayFor] using h

/-! ## Adapters and error types (C4) -/

theorem fetchWithRetryGo_error_name (cfg : RetryConfig) (trace : Nat → AttemptResult)
    (fuel : Nat) :
    ∀ (attempt : Nat) (lastError : Option JsError),
      (∀ e0, lastError = some e0 → e0.name = "Error") →
      ∀ e, (fetchWithRetryGo cfg trace attempt fuel lastError).outcome = .error e →
        e.name = "Error" := by
  induction fuel with
  | zero =>
    intro a le hle e h
    cases le with
    | none =>
      simp only [fetchWithRetryGo, Option.getD] at h
      injection h with h
      subst h
      rfl
    | some e0 =>
      simp only [fetchWithRetryGo, Option.getD] at h
      injection h with h
      subst h
      exact hle e0 rfl
  | succ fuel ih =>
    intro a le hle e h
    rcases htb : tryBody (trace a) with r | e1
    · simp [fetchWithRetryGo, htb] at h
    · simp only [fetchWithRetryGo, htb] at h
      split at h <;>
        exact ih (a + 1) (some e1)
          (fun e0 h0 => by cases h0; exact tryBody_caught_name _ _ htb) e h

/-- C4 (counterexample): a failing `transcribeAudio` call — every
attempt answering 404 with a vendor error payload in the body —
delivers the plain retry-client error: class name `Error` (not
`TranscriptionError`) and message `HTTP 404: Not Found` (the status
line, not the vendor payload's message). -/
theorem C4_plain_error_counterexample :
    transcribeAudio 0 (fun _ => .resp ⟨404, "Not Found", "error: no audio file provided"⟩)
        (fun _ => .ok ⟨"", ""⟩)
      = .error (jsError "HTTP 404: Not Found") ∧
    (jsError "HTTP 404: Not Found").name ≠ "TranscriptionError" ∧
    (jsError "HTTP 404: Not Found").message ≠ "error: no audio file provided" := by
  decide

/-- C4 (amended): when the retry client fails, each adapter —
`transcribeAudio`, `generateResponse`, `textToSpeech` — delivers that
error unchanged: a plain `Error` (status-derived or transport
message). The typed classes `TranscriptionError`, `GenerationError`
and `TTSError` are defined and distinguishable by their `name`, but no
adapter ever throws them, so the delivered error is never one of
them. -/
theorem C4_amended_adapter_errors
    (sid : Nat) (trace : Nat → AttemptResult)
    (userText text voiceId : String) (context : List ContextEntry) (format : AudioFormat)
    (j1 : Response → Except JsError TranscribeResponse)
    (j2 : Response → Except JsError GenerateResponse)
    (j3 : Response → Except JsError TTSResponse)
    (e : JsError)
    (h : (fetchWithRetry defaultRetryConfig trace).outcome = .error e) :
    transcribeAudio sid trace j1 = .error e ∧
    generateResponse userText sid context trace j2 = .error e ∧
    textToSpeech text voiceId format trace j3 = .error e ∧
    e.name = "Error" ∧
    (∀ m, e ≠ TranscriptionError m) ∧
    (∀ m, e ≠ GenerationError m) ∧
    (∀ m, e ≠ TTSError m) := by
  have hname : e.name = "Error" :=
    fetchWithRetryGo_error_name defaultRetryConfig trace (defaultRetryConfig.maxRetries + 1)
      0 none (fun _ h0 => by cases h0) e h
  refine ⟨by simp [transcribeAudio, h], by simp [generateResponse, h],
    by simp [textToSpeech, h], hname, ?_, ?_, ?_⟩
  · exact fun m heq => by rw [heq] at hname; simp [TranscriptionError] at hname
  · exact fun m heq => by rw [heq] at hname; simp [GenerationError] at hname
  · exact fun m heq => by rw [heq] at hname; simp [TTSError] at hname

/-- Witness for C4 (amended) at an all-404 trace. -/
theorem C4_amended_witness :
    transcribeAudio 0 (fun _ => .resp ⟨404, "Not Found", ""⟩) (fun _ => .ok ⟨"", ""⟩)
      = .error (jsError "HTTP 404: Not Found") :=
  (C4_amended_adapter_errors 0 (fun _ => .resp ⟨404, "Not Found", ""⟩) "u" "t" "v" []
    .mp3 (fun _ => .ok ⟨"", ""⟩) (fun _ => .ok ⟨"", "", 0, ""⟩) (fun _ => .ok ⟨"", 0⟩)
    (jsError "HTTP 404: Not Found") (by decide)).1

/-! ## Session store basics -/

theorem getSession_none (st : StoreState) (h : st.storage = none) :
    getSession st = (none, st) := by
  simp [getSession, h]

theorem getSession_corrupt (st : StoreState) (raw : String)
    (h : st.storage = some (.corrupt raw)) :
    getSession st = (none, st) := by
  simp [getSession, h, jsonParse]

theorem getSession_valid (st : StoreState) (s : SessionData)
    (hs : st.storage = some (.valid s)) (h : st.now - s.updatedAt ≤ SESSION_TTL) :
    getSession st = (some s, st) := by
  simp only [getSession, hs, jsonParse]
  rw [if_neg (by omega)]

theorem getSession_expired (st : StoreState) (s : SessionData)
    (hs : st.storage = some (.valid s)) (h : SESSION_TTL < st.now - s.updatedAt) :
    getSession st = (none, clearSession st) := by
  simp only [getSession, hs, jsonParse]
  rw [if_pos h]

theorem getMessages_of_noExpiry (st : StoreState) (h : NoExpiry st) :
    getMessages st = (storedMessages st, st) := by
  rcases hs : st.storage with _ | blob
  · simp [getMessages, getSession_none st hs, storedMessages, hs]
  · rcases blob with s | raw
    · simp [getMessages, getSession_valid st s hs (h s hs), storedMessages, hs]
    · simp [getMessages, getSession_corrupt st raw hs, storedMessages, hs]

theorem getConversationContext_of_noExpiry (st : StoreState) (h : NoExpiry st) :
    getConversationContext st = (contextOf (storedMessages st), st) := by
  simp [getConversationContext, getMessages_of_noExpiry st h, contextOf]

theorem addMessage_eq (r : Role) (c : String) (a : Option String) (st : StoreState)
    (h : NoExpiry st) :
    ∃ (s' : SessionData) (mid : Nat),
      addMessage r c a st
        = ({ id := mid, role := r, content := c, timestamp := st.now,
             audioUrl := a, isEdited := none },
           { storage := some (.valid s'), now := st.now, nextId := mid + 1 }) ∧
      s'.messages = storedMessages st
          ++ [{ id := mid, role := r, content := c, timestamp := st.now,
                audioUrl := a, isEdited := none }] ∧
      s'.updatedAt = st.now ∧
      st.nextId ≤ mid := by
  obtain ⟨storage, now, nextId⟩ := st
  rcases storage with _ | blob
  · exact ⟨⟨nextId, [⟨nextId + 1, r, c, now, a, none⟩], now, now, defaultSettings⟩,
      nextId + 1, rfl, rfl, rfl, Nat.le_succ nextId⟩
  · rcases blob with s | raw
    · have hgs : getSession ⟨some (.valid s), now, nextId⟩
          = (some s, ⟨some (.valid s), now, nextId⟩) :=
        getSession_valid _ s rfl (h s rfl)
      refine ⟨⟨s.id, s.messages ++ [⟨nextId, r, c, now, a, none⟩], s.createdAt, now,
        s.settings⟩, nextId, ?_, rfl, rfl, le_rfl⟩
      simp [addMessage, getOrCreateSession, hgs, generateId, saveSession]
    · exact ⟨⟨nextId, [⟨nextId + 1, r, c, now, a, none⟩], now, now, defaultSettings⟩,
      nextId + 1, rfl, rfl, rfl, Nat.le_succ nextId⟩

/-- C9: a stored blob on which `JSON.parse` throws makes `getSession()`
return `null` (the `catch` swallows the exception) with the state
untouched; at the public interface the corrupt blob behaves like an
absent session: no messages, and `getOrCreateSession()` creates
afresh. -/
theorem C9_corrupt_blob_null (st : StoreState) (raw : String)
    (h : st.storage = some (.corrupt raw)) :
    getSession st = (none, st) ∧ (getMessages st).1 = [] ∧
    getOrCreateSession st = createSession st := by
  have hg := getSession_corrupt st raw h
  exact ⟨hg, by simp [getMessages, hg], by simp [getOrCreateSession, hg]⟩

/-- Witness for C9 on a concrete corrupt blob. -/
theorem C9_corrupt_blob_null_witness :
    getSession ⟨some (.corrupt "not json"), 5, 7⟩
      = (none, ⟨some (.corrupt "not json"), 5, 7⟩) :=
  (C9_corrupt_blob_null ⟨some (.corrupt "not json"), 5, 7⟩ "not json" rfl).1

/-- C7: a stored session with `now - updatedAt > SESSION_TTL` makes
`getSession()` return `null` and delete the blob as a side effect, and
a subsequent `getOrCreateSession()` creates a session whose freshly
generated id differs from the expired one's. -/
theorem C7_expired_session_replaced (st : StoreState) (s : SessionData)
    (hs : st.storage = some (.valid s)) (hexp : SESSION_TTL < st.now - s.updatedAt)
    (hfresh : s.id < st.nextId) :
    (getSession st).1 = none ∧
    (getSession st).2.storage = none ∧
    (getOrCreateSession (getSession st).2).1.id ≠ s.id := by
  have hg := getSession_expired st s hs hexp
  refine ⟨by simp [hg], by simp [hg, clearSession], ?_⟩
  rw [hg]
  have hnone : getSession (clearSession st) = (none, clearSession st) :=
    getSession_none _ rfl
  simp only [getOrCreateSession, hnone, createSession, generateSessionId]
  simp only [clearSession]
  omega

/-- Witness for C7: a session last touched at time 0, a clock past the
one-hour TTL, and a fresh-id counter beyond the stored id. -/
theorem C7_expired_session_replaced_witness :
    (getOrCreateSession
        (getSession ⟨some (.valid ⟨0, [], 0, 0, defaultSettings⟩), 4000000, 1⟩).2).1.id
      ≠ 0 :=
  (C7_expired_session_replaced ⟨some (.valid ⟨0, [], 0, 0, defaultSettings⟩), 4000000, 1⟩
    ⟨0, [], 0, 0, defaultSettings⟩ rfl (by decide) (by decide)).2.2

/-- C10 (counterexample): with an *expired* stored session,
`updateMessage` is not a complete no-op — `getSession`'s expiry check
deletes the stored blob, changing persisted state. -/
theorem C10_expired_blob_deleted_counterexample :
    (updateMessage 5 "x"
        ⟨some (.valid ⟨0, [], 0, 0, defaultSettings⟩), 4000000, 1⟩).storage = none ∧
    (⟨some (.valid ⟨0, [], 0, 0, defaultSettings⟩), 4000000, 1⟩ : StoreState).storage
      ≠ none := by
  constructor
  · rfl
  · simp

/-- C10 (amended): `updateMessage` and `updateMessageAudioUrl` never
create a session. When nothing is stored, or the stored blob is
corrupt, they change nothing at all; when the stored blob is expired,
the only storage change is its deletion (a side effect of
`getSession`'s expiry check). `addMessage` and `updateSettings`, in
contrast, lazily create and persist a session when nothing is
stored. -/
theorem C10_amended_frame (st : StoreState) (mid : Nat) (c url : String)
    (p : PartialSettings) :
    (st.storage = none →
      updateMessage mid c st = st ∧ updateMessageAudioUrl mid url st = st ∧
      (∃ s', ((addMessage .user c none st).2).storage = some (.valid s')) ∧
      (∃ s', (updateSettings p st).storage = some (.valid s'))) ∧
    (∀ raw, st.storage = some (.corrupt raw) →
      updateMessage mid c st = st ∧ updateMessageAudioUrl mid url st = st) ∧
    (∀ s, st.storage = some (.valid s) → SESSION_TTL < st.now - s.updatedAt →
      (updateMessage mid c st).storage = none ∧
      (updateMessageAudioUrl mid url st).storage = none) := by
  refine ⟨fun h => ?_, fun raw h => ?_, fun s hs hexp => ?_⟩
  · have hg := getSession_none st h
    have hne : NoExpiry st := fun s hsv => by rw [h] at hsv; cases hsv
    obtain ⟨s', m', hEq, -, -, -⟩ := addMessage_eq .user c none st hne
    refine ⟨by simp [updateMessage, hg], by simp [updateMessageAudioUrl, hg],
      ⟨s', by rw [hEq]⟩, ?_⟩
    simp only [updateSettings, getOrCreateSession, hg, createSession,
      generateSessionId, saveSession]
    exact ⟨_, rfl⟩
  · have hg := getSession_corrupt st raw h
    exact ⟨by simp [updateMessage, hg], by simp [updateMessageAudioUrl, hg]⟩
  · have hg := getSession_expired st s hs hexp
    exact ⟨by simp [updateMessage, hg, clearSession],
      by simp [updateMessageAudioUrl, hg, clearSession]⟩

/-- Witness for C10 (amended) on the empty store. -/
theorem C10_amended_frame_witness :
    updateMessage 5 "x" ⟨none, 0, 0⟩ = ⟨none, 0, 0⟩ :=
  ((C10_amended_frame ⟨none, 0, 0⟩ 5 "x" "u" ⟨none, none, none⟩).1 rfl).1

/-! ## Message insertion (C8) -/

theorem runAdds_spec :
    ∀ (calls : List AddCall) (st : StoreState),
      NoExpiry st →
      (∀ c, calls.head? = some c → NoExpiry { st with now := c.time }) →
      List.Chain' (fun a b => b.time - a.time ≤ SESSION_TTL) calls →
      IdsBelow st →
      ((storedMessages st).map Message.id).Nodup →
      (storedMessages (runAdds calls st)).map (fun m => (m.role, m.content, m.timestamp))
          = (storedMessages st).map (fun m => (m.role, m.content, m.timestamp))
            ++ calls.map (fun c => (c.role, c.content, c.time)) ∧
      ((storedMessages (runAdds calls st)).map Message.id).Nodup ∧
      IdsBelow (runAdds calls st) ∧
      NoExpiry (runAdds calls st)
  | [], st, h1, _, _, h4, h5 => ⟨by simp [runAdds], h5, h4, h1⟩
  | c :: cs, st, h1, h2, h3, h4, h5 => by
    have hNE : NoExpiry { st with now := c.time } := h2 c rfl
    obtain ⟨s', mid, hEq, hMsgs, hUpd, hLe⟩ :=
      addMessage_eq c.role c.content c.audioUrl { st with now := c.time } hNE
    have hLe' : st.nextId ≤ mid := hLe
    have hUpd' : s'.updatedAt = c.time := hUpd
    have hrun : runAdds (c :: cs) st
        = runAdds cs ⟨some (.valid s'), c.time, mid + 1⟩ := by
      simp only [runAdds, hEq]
    have hsm : storedMessages (⟨some (.valid s'), c.time, mid + 1⟩ : StoreState)
        = s'.messages := rfl
    have hms : storedMessages { st with now := c.time } = storedMessages st := rfl
    have hIds' : IdsBelow (⟨some (.valid s'), c.time, mid + 1⟩ : StoreState) := by
      intro m hm
      rw [hsm, hMsgs, hms] at hm
      rcases List.mem_append.mp hm with hm | hm
      · have := h4 m hm
        show m.id < mid + 1
        omega
      · simp only [List.mem_singleton] at hm
        subst hm
        exact Nat.lt_succ_self mid
    have hNodup' :
        ((storedMessages (⟨some (.valid s'), c.time, mid + 1⟩ : StoreState)).map
          Message.id).Nodup := by
      rw [hsm, hMsgs, hms, List.map_append, List.nodup_append]
      refine ⟨h5, by simp, ?_⟩
      intro x hx hx2
      simp only [List.map_cons, List.map_nil, List.mem_singleton] at hx2
      obtain ⟨m, hm, hmx⟩ := List.mem_map.mp hx
      have := h4 m hm
      omega
    have hNE' : NoExpiry (⟨some (.valid s'), c.time, mid + 1⟩ : StoreState) := by
      intro s hs
      injection hs with hs
      injection hs with hs
      subst hs
      simp [hUpd']
    obtain ⟨hhead, htail⟩ := List.chain'_cons'.mp h3
    have h2' : ∀ c', cs.head? = some c' →
        NoExpiry { (⟨some (.valid s'), c.time, mid + 1⟩ : StoreState) with
          now := c'.time } := by
      intro c' hc' s hs
      injection hs with hs
      injection hs with hs
      subst hs
      have hrel := hhead c' (Option.mem_def.mpr hc')
      show c'.time - s'.updatedAt ≤ SESSION_TTL
      rw [hUpd']
      exact hrel
    obtain ⟨A, B, C, D⟩ := runAdds_spec cs ⟨some (.valid s'), c.time, mid + 1⟩
      hNE' h2' htail hIds' hNodup'
    rw [hrun]
    refine ⟨?_, B, C, D⟩
    rw [A, hsm, hMsgs, hms, List.map_append]
    simp

/-- C8: starting from an empty store, any sequence of `addMessage`
calls — performed at non-decreasing-enough times so that no call finds
the session expired — yields, via `getMessages()`, exactly the added
messages in insertion order, each carrying its call's role, content
and clock reading as the timestamp, with pairwise distinct ids. -/
theorem C8_insertion_order_unique_ids (calls : List AddCall) (st0 : StoreState)
    (h0 : st0.storage = none)
    (hchain : List.Chain' (fun a b => b.time - a.time ≤ SESSION_TTL) calls) :
    (getMessages (runAdds calls st0)).1.map (fun m => (m.role, m.content, m.timestamp))
      = calls.map (fun c => (c.role, c.content, c.time)) ∧
    ((getMessages (runAdds calls st0)).1.map Message.id).Nodup := by
  have hempty : storedMessages st0 = [] := by
    unfold storedMessages
    rw [h0]
  have h1 : NoExpiry st0 := fun s hs => by rw [h0] at hs; cases hs
  have h2 : ∀ c, calls.head? = some c → NoExpiry { st0 with now := c.time } := by
    intro c _ s hs
    have : ({ st0 with now := c.time } : StoreState).storage = st0.storage := rfl
    rw [this, h0] at hs
    cases hs
  have h4 : IdsBelow st0 := by
    intro m hm
    rw [hempty] at hm
    cases hm
  have h5 : ((storedMessages st0).map Message.id).Nodup := by
    rw [hempty]
    exact List.nodup_nil
  obtain ⟨A, B, _, D⟩ := runAdds_spec calls st0 h1 h2 hchain h4 h5
  rw [getMessages_of_noExpiry _ D]
  refine ⟨?_, B⟩
  rw [A, hempty]
  simp

/-- Witness for C8: two calls on the empty store. -/
theorem C8_insertion_order_unique_ids_witness :
    (getMessages (runAdds [⟨10, .user, "hi", none⟩, ⟨20, .assistant, "yo", none⟩]
        ⟨none, 0, 0⟩)).1.map (fun m => (m.role, m.content, m.timestamp))
      = [(Role.user, "hi", 10), (Role.assistant, "yo", 20)] ∧
    ((getMessages (runAdds [⟨10, .user, "hi", none⟩, ⟨20, .assistant, "yo", none⟩]
        ⟨none, 0, 0⟩)).1.map Message.id).Nodup :=
  C8_insertion_order_unique_ids
    [⟨10, .user, "hi", none⟩, ⟨20, .assistant, "yo", none⟩]
    ⟨none, 0, 0⟩ rfl (List.chain'_pair.mpr (by decide))

/-! ## Orchestrator (C2, C3) -/

/-- C2 (code bug): the claim — and the source comment "Re-save without
the placeholder (manual cleanup)" — say that after a failed
generation the store's `getMessages()` no longer contains the
placeholder. In both variants the failure handler only filters the
React `messages` state (`setMessages(filteredMessages)`) and never
writes the filtered list back to the store, so `getMessages()` still
returns the empty assistant placeholder (id 2 here) as a trailing
entry, while the UI list has dropped it. -/
theorem C2_placeholder_persists_eval :
    ((getMessages (processUserInputV1 "hello"
          (fun _ => .resp ⟨500, "Internal Server Error", ""⟩)
          (fun _ => .ok ⟨"", "", 0, ""⟩) defaultSettings (fun _ a => a)
          ⟨⟨none, 100, 0⟩, ⟨[], none, none, false⟩⟩).app.store).1.map
        (fun m => (m.id, m.role, m.content))
      = [(1, Role.user, "hello"), (2, Role.assistant, "")]) ∧
    ((processUserInputV1 "hello"
          (fun _ => .resp ⟨500, "Internal Server Error", ""⟩)
          (fun _ => .ok ⟨"", "", 0, ""⟩) defaultSettings (fun _ a => a)
          ⟨⟨none, 100, 0⟩, ⟨[], none, none, false⟩⟩).placeholderMessage.id = 2) ∧
    ((processUserInputV1 "hello"
          (fun _ => .resp ⟨500, "Internal Server Error", ""⟩)
          (fun _ => .ok ⟨"", "", 0, ""⟩) defaultSettings (fun _ a => a)
          ⟨⟨none, 100, 0⟩, ⟨[], none, none, false⟩⟩).genResult
      = .error (jsError "HTTP 500: Internal Server Error")) ∧
    ((processUserInputV1 "hello"
          (fun _ => .resp ⟨500, "Internal Server Error", ""⟩)
          (fun _ => .ok ⟨"", "", 0, ""⟩) defaultSettings (fun _ a => a)
          ⟨⟨none, 100, 0⟩, ⟨[], none, none, false⟩⟩).app.ui.messages.map Message.id
      = [1]) ∧
    ((getMessages (processUserInputV2 "hello"
          (fun _ => .resp ⟨500, "Internal Server Error", ""⟩)
          (fun _ => .ok ⟨"", "", 0, ""⟩) defaultSettings (fun _ a => a)
          ⟨⟨none, 100, 0⟩, ⟨[], none, none, false⟩⟩).app.store).1.map
        (fun m => (m.id, m.role, m.content))
      = [(1, Role.user, "hello"), (2, Role.assistant, "")]) ∧
    ((processUserInputV2 "hello"
          (fun _ => .resp ⟨500, "Internal Server Error", ""⟩)
          (fun _ => .ok ⟨"", "", 0, ""⟩) defaultSettings (fun _ a => a)
          ⟨⟨none, 100, 0⟩, ⟨[], none, none, false⟩⟩).app.ui.messages.map Message.id
      = [1]) := by
  decide

/-- C3 (counterexample): in the slicing variant the context passed to
the generate adapter for the very first turn on an empty store is
`[{role: user, content: "hi"}]` — it *contains* the in-flight user
message (`slice(0, -1)` removes only the placeholder), contradicting
the claim that both variants exclude it. -/
theorem C3_slice_includes_user_counterexample :
    (getMessages (⟨⟨none, 100, 0⟩, ⟨[], none, none, false⟩⟩ : App).store).1 = [] ∧
    (processUserInputV2 "hi"
          (fun _ => .resp ⟨500, "Internal Server Error", ""⟩)
          (fun _ => .ok ⟨"", "", 0, ""⟩) defaultSettings (fun _ a => a)
          ⟨⟨none, 100, 0⟩, ⟨[], none, none, false⟩⟩).contextSent
      = [⟨Role.user, "hi"⟩] := by
  decide

/-- C3 (amended): for every turn on a store with no expired session,
variant 1 passes exactly the pre-turn conversation history as context
— excluding both the in-flight user message and the placeholder —
while variant 2 passes the pre-turn history *plus* the in-flight user
message as its last entry, excluding only the placeholder. -/
theorem getSessionId_valid (st : StoreState) (s : SessionData)
    (hs : st.storage = some (.valid s)) (h : st.now - s.updatedAt ≤ SESSION_TTL) :
    getSessionId st = (s.id, st) := by
  simp [getSessionId, getOrCreateSession, getSession_valid st s hs h]

theorem C3_amended_context (userText : String) (genTrace : Nat → AttemptResult)
    (genJson : Response → Except JsError GenerateResponse)
    (settings : SessionSettings) (playAudio : Nat → App → App) (app : App)
    (h : NoExpiry app.store) :
    (processUserInputV1 userText genTrace genJson settings playAudio app).contextSent
        = contextOf (storedMessages app.store) ∧
    (processUserInputV2 userText genTrace genJson settings playAudio app).contextSent
        = contextOf (storedMessages app.store) ++ [⟨.user, userText⟩] := by
  obtain ⟨s1, m1, hEq1, hMsgs1, hUpd1, hLe1⟩ :=
    addMessage_eq .user userText none app.store h
  have hU1 : s1.updatedAt = app.store.now := hUpd1
  have hNEA : NoExpiry (⟨some (.valid s1), app.store.now, m1 + 1⟩ : StoreState) := by
    intro s hs
    injection hs with hs
    injection hs with hs
    subst hs
    show app.store.now - s1.updatedAt ≤ SESSION_TTL
    rw [hU1]
    simp
  obtain ⟨s2, m2, hEq2, hMsgs2, hUpd2, hLe2⟩ :=
    addMessage_eq .assistant "" none ⟨some (.valid s1), app.store.now, m1 + 1⟩ hNEA
  have hU2 : s2.updatedAt = app.store.now := hUpd2
  have hNEB : NoExpiry (⟨some (.valid s2), app.store.now, m2 + 1⟩ : StoreState) := by
    intro s hs
    injection hs with hs
    injection hs with hs
    subst hs
    show app.store.now - s2.updatedAt ≤ SESSION_TTL
    rw [hU2]
    simp
  have hSid : getSessionId ⟨some (.valid s2), app.store.now, m2 + 1⟩
      = (s2.id, ⟨some (.valid s2), app.store.now, m2 + 1⟩) :=
    getSessionId_valid _ s2 rfl (by rw [hU2]; simp)
  have hTail : (contextOf s2.messages).dropLast
      = contextOf (storedMessages app.store) ++ [⟨.user, userText⟩] := by
    rw [hMsgs2, ← List.concat_eq_append]
    simp only [contextOf, List.map_concat, List.dropLast_concat]
    have hs1 : storedMessages (⟨some (.valid s1), app.store.now, m1 + 1⟩ : StoreState)
        = s1.messages := rfl
    rw [hs1, hMsgs1]
    simp
  constructor
  · unfold processUserInputV1
    rw [getConversationContext_of_noExpiry app.store h]
    dsimp only
    rw [hEq1]
    dsimp only
    rw [getMessages_of_noExpiry _ hNEA]
    dsimp only
    rw [hEq2]
    dsimp only
    rw [getMessages_of_noExpiry _ hNEB]
    dsimp only
    rw [hSid]
    dsimp only
    rcases hout : (fetchWithRetry defaultRetryConfig genTrace).outcome with e | r
    · simp [generateResponse, hout]
    · rcases hj : genJson r with e | resp
      · simp [generateResponse, hout, hj]
      · simp [generateResponse, hout, hj]
  · unfold processUserInputV2
    rw [hEq1]
    dsimp only
    rw [getMessages_of_noExpiry _ hNEA]
    dsimp only
    rw [hEq2]
    dsimp only
    rw [getMessages_of_noExpiry _ hNEB]
    dsimp only
    rw [getConversationContext_of_noExpiry _ hNEB]
    dsimp only
    rw [hSid]
    dsimp only
    rcases hout : (fetchWithRetry defaultRetryConfig genTrace).outcome with e | r
    · simp only [generateResponse, hout]
      exact hTail
    · rcases hj : genJson r with e | resp
      · simp only [generateResponse, hout, hj]
        exact hTail
      · simp only [generateResponse, hout, hj]
        exact hTail

/-- Witness for C3 (amended): first turn on the empty store. -/
theorem C3_amended_context_witness :
    (processUserInputV1 "hi" (fun _ => .resp ⟨500, "ISE", ""⟩)
        (fun _ => .ok ⟨"", "", 0, ""⟩) defaultSettings (fun _ a => a)
        ⟨⟨none, 100, 0⟩, ⟨[], none, none, false⟩⟩).contextSent
      = contextOf (storedMessages (⟨none, 100, 0⟩ : StoreState)) :=
  (C3_amended_context "hi" (fun _ => .resp ⟨500, "ISE", ""⟩)
    (fun _ => .ok ⟨"", "", 0, ""⟩) defaultSettings (fun _ a => a)
    ⟨⟨none, 100, 0⟩, ⟨[], none, none, false⟩⟩
    (fun s hs => by cases hs)).1

end Unwind
